import Mathlib

/-!
Verification of `validation/QY/QY_wo_nitrate_ratio/QY - Tomato2022.py`.

The script configures two constraint-based metabolic models (a non-diel and
a diel tomato model), runs a parsimonious FBA solve on each via the external
`cobra` library, extracts four named flux values, computes two quantum-yield
ratios, assembles a two-row table and writes it to `QY_Tomato22.csv`.

Shallow embedding conventions:
* a metabolic model is a record of reactions (id, bounds, stoichiometry),
  metabolites, objective reaction id and objective direction; the script's
  in-place mutations become explicit state passing;
* a flux solution is an association list from reaction id to a rational
  flux value; a lookup of an absent key fails (Python raises `KeyError`),
  embedded as `Option`;
* the external pFBA solver is an opaque parameter of type
  `MetabolicModel → Except String Solution`; a failed solve is `.error`;
* the written CSV file is embedded structurally: its name, separator,
  header line, and data rows (label cell, numeric cell). Numeric cells are
  kept as exact values because the external library's float serialization
  round-trips losslessly.
-/

/-- A reaction of a constraint-based model: identifier, lower/upper flux
bound, and its stoichiometric row (metabolite id, coefficient). -/
structure Reaction where
  id : String
  lowerBound : Rat
  upperBound : Rat
  stoichiometry : List (String × Rat)
deriving DecidableEq

/-- A constraint-based metabolic model as the script manipulates it:
reactions, metabolites, the objective reaction id and the optimization
direction. -/
structure MetabolicModel where
  reactions : List Reaction
  metabolites : List String
  objective : String
  objectiveDirection : String
deriving DecidableEq

/-- A flux solution vector: mapping from reaction identifier to flux value
(the `fluxes` attribute of a cobra solution). -/
def FluxMap : Type := List (String × Rat)

instance : DecidableEq FluxMap := by
  unfold FluxMap
  infer_instance

/-- Lookup of a reaction's flux by name; `none` models Python's `KeyError`
on an absent key. -/
def FluxMap.lookup (s : FluxMap) (k : String) : Option Rat :=
  List.lookup k s

/-- Result object of a pFBA solve; the script only reads its `fluxes`. -/
structure Solution where
  fluxes : FluxMap
deriving DecidableEq

/-- Embeds lines 8-12 of the script:
`QY(non_diel_model, diel_model)` runs `pfba` on the non-diel model, then on
the diel model, and returns the pair of their `fluxes` mappings. The
external solver is passed explicitly; a solver failure propagates. -/
def QY (pfba : MetabolicModel → Except String Solution)
    (non_diel_model diel_model : MetabolicModel) :
    Except String (FluxMap × FluxMap) := do
  let fba_sol_nd := (← pfba non_diel_model).fluxes
  let fba_sol_d := (← pfba diel_model).fluxes
  return (fba_sol_nd, fba_sol_d)

/-- Sets the bounds of the reaction named `rid` to `b`, leaving every other
reaction unchanged (embeds `model.reactions.<rid>.bounds = b`). -/
def setReactionBounds (rs : List Reaction) (rid : String) (b : Rat × Rat) :
    List Reaction :=
  rs.map fun r =>
    if r.id = rid then { r with lowerBound := b.1, upperBound := b.2 } else r

/-- Embeds lines 19-21 of the script: on the non-diel model, set the
objective to `EX_photon_h`, the direction to `max`, and fix
`BIOMASS_STEM`'s bounds to `(0.11, 0.11)`. The in-place mutation is
state passing; the Python statements return no value. -/
def configureNonDiel (m : MetabolicModel) : MetabolicModel :=
  { m with
    objective := "EX_photon_h"
    objectiveDirection := "max"
    reactions := setReactionBounds m.reactions "BIOMASS_STEM" (11/100, 11/100) }

/-- Embeds lines 22-24 of the script: on the diel model, set the objective
to `EX_photon_h_Day`, the direction to `max`, and fix `Biomass_Total`'s
bounds to `(0.11, 0.11)`. -/
def configureDiel (m : MetabolicModel) : MetabolicModel :=
  { m with
    objective := "EX_photon_h_Day"
    objectiveDirection := "max"
    reactions := setReactionBounds m.reactions "Biomass_Total" (11/100, 11/100) }

/-- Embeds lines 28-30 of the script: the `data_quantum_assimilation`
dictionary's single entry, the list of the two quantum-yield ratios
`fluxes[RBPCh] / -fluxes[EX_photon_h]` (non-diel) and
`fluxes[RBPCh_Day] / -fluxes[EX_photon_h_Day]` (diel). Lookups are
evaluated left to right, as Python evaluates the list; a missing key
fails the whole computation. -/
def data_quantum_assimilation (fba_sol_non_diel fba_sol_diel_model : FluxMap) :
    Option (Rat × Rat) := do
  let c ← fba_sol_non_diel.lookup "RBPCh"
  let p ← fba_sol_non_diel.lookup "EX_photon_h"
  let cDay ← fba_sol_diel_model.lookup "RBPCh_Day"
  let pDay ← fba_sol_diel_model.lookup "EX_photon_h_Day"
  return (c / (-p), cDay / (-pDay))

/-- A pandas-style table: one value column with a name, and rows of
(index label, value). -/
structure Table where
  column : String
  rows : List (String × Rat)
deriving DecidableEq

/-- Embeds lines 32-34 of the script: `tabel = pd.DataFrame(...)` followed
by `tabel.index = ["Original Model", "Created Diel Model"]`, given the two
already computed ratio values. -/
def mkTabel (v1 v2 : Rat) : Table :=
  { column := "Quantum Yield"
    rows := [("Original Model", v1), ("Created Diel Model", v2)] }

/-- Structural view of the CSV file written by `tabel.to_csv`: file name,
separator, header line (empty index-name cell, then the column name), and
one data row per table row. Numeric cells hold the exact values, since the
library's float serialization round-trips. -/
structure CSVFile where
  name : String
  sep : Char
  headerLine : String
  dataRows : List (String × Rat)
deriving DecidableEq

/-- Embeds line 36 of the script:
`tabel.to_csv('QY_Tomato22.csv', sep=',')`. -/
def to_csv (t : Table) : CSVFile :=
  { name := "QY_Tomato22.csv"
    sep := ','
    headerLine := String.append "," t.column
    dataRows := t.rows }

/-- Re-reading a written CSV file as a table: the column name is the header
line after the leading index-cell separator; each data row yields one
labeled value. Used to state the round-trip property. -/
def read_csv (f : CSVFile) : Table :=
  { column := f.headerLine.drop 1
    rows := f.dataRows }

/-- The script's run output: the CSV file written to disk and the table
printed to standard output. -/
structure RunOutput where
  written : CSVFile
  printed : Table
deriving DecidableEq

/-- Embeds lines 28-38 of the script, from the two pFBA flux mappings to
the end of the run: compute the two ratios, build the table, write the CSV
file, print the table. If a flux lookup fails, the run terminates with no
output (`none`): in particular no CSV file is written. -/
def scriptTail (fba_sol_non_diel fba_sol_diel_model : FluxMap) :
    Option RunOutput := do
  let qs ← data_quantum_assimilation fba_sol_non_diel fba_sol_diel_model
  let tabel := mkTabel qs.1 qs.2
  return { written := to_csv tabel, printed := tabel }

/-! Concrete fixtures used by the witnesses below. -/

/-- The spec's fabricated non-diel flux mapping `{RBPCh: 10, EX_photon_h: -20}`. -/
def exampleNonDielFluxes : FluxMap := [("RBPCh", 10), ("EX_photon_h", -20)]

/-- The spec's fabricated diel flux mapping `{RBPCh_Day: 5, EX_photon_h_Day: -10}`. -/
def exampleDielFluxes : FluxMap := [("RBPCh_Day", 5), ("EX_photon_h_Day", -10)]

/-- A small concrete non-diel model containing the reactions the script names. -/
def sampleNonDielModel : MetabolicModel :=
  { reactions :=
      [⟨"BIOMASS_STEM", 0, 1000, [("m1", 1)]⟩,
       ⟨"EX_photon_h", -1000, 0, []⟩,
       ⟨"RBPCh", 0, 1000, [("m1", -1)]⟩]
    metabolites := ["m1"]
    objective := "BIOMASS_STEM"
    objectiveDirection := "max" }

/-- A small concrete diel model containing the reactions the script names. -/
def sampleDielModel : MetabolicModel :=
  { reactions :=
      [⟨"Biomass_Total", 0, 1000, [("m1", 1)]⟩,
       ⟨"EX_photon_h_Day", -1000, 0, []⟩,
       ⟨"RBPCh_Day", 0, 1000, [("m1", -1)]⟩]
    metabolites := ["m1"]
    objective := "Biomass_Total"
    objectiveDirection := "max" }

/-- A solver stub that succeeds on every model with a fixed flux mapping. -/
def okSolver : MetabolicModel → Except String Solution :=
  fun _ => Except.ok ⟨exampleNonDielFluxes⟩

/-- A solver stub that fails on every model (infeasible problem). -/
def failSolver : MetabolicModel → Except String Solution :=
  fun _ => Except.error "infeasible"

/-- C1: for every pair of flux mappings containing the four named keys, the
non-diel quantum-yield value is the flux at `RBPCh` divided by the negation
of the flux at `EX_photon_h`, and the diel value is the flux at `RBPCh_Day`
divided by the negation of the flux at `EX_photon_h_Day`. -/
theorem C1_quantum_yield_ratios (nd d : FluxMap) (c p cDay pDay : Rat)
    (h1 : nd.lookup "RBPCh" = some c)
    (h2 : nd.lookup "EX_photon_h" = some p)
    (h3 : d.lookup "RBPCh_Day" = some cDay)
    (h4 : d.lookup "EX_photon_h_Day" = some pDay) :
    data_quantum_assimilation nd d = some (c / (-p), cDay / (-pDay)) := by
  simp [data_quantum_assimilation, h1, h2, h3, h4]

/-- C1 witness: on the spec's fabricated mappings `{RBPCh: 10,
EX_photon_h: -20}` and `{RBPCh_Day: 5, EX_photon_h_Day: -10}` both ratios
equal `0.5`. -/
theorem C1_quantum_yield_ratios_witness :
    FluxMap.lookup exampleNonDielFluxes "RBPCh" = some 10 ∧
    FluxMap.lookup exampleNonDielFluxes "EX_photon_h" = some (-20) ∧
    FluxMap.lookup exampleDielFluxes "RBPCh_Day" = some 5 ∧
    FluxMap.lookup exampleDielFluxes "EX_photon_h_Day" = some (-10) ∧
    data_quantum_assimilation exampleNonDielFluxes exampleDielFluxes
      = some (1/2, 1/2) := by
  refine ⟨by decide, by decide, by decide, by decide, ?_⟩
  rw [C1_quantum_yield_ratios exampleNonDielFluxes exampleDielFluxes
    10 (-20) 5 (-10) (by decide) (by decide) (by decide) (by decide)]
  norm_num

/-- C3: for every solver and every pair of configured models, `QY` runs the
solve on each model and returns the two flux mappings unmodified, the first
from the non-diel model and the second from the diel model. -/
theorem C3_QY_returns_both_flux_mappings
    (pfba : MetabolicModel → Except String Solution)
    (nd d : MetabolicModel) (s1 s2 : Solution)
    (h1 : pfba nd = Except.ok s1) (h2 : pfba d = Except.ok s2) :
    QY pfba nd d = Except.ok (s1.fluxes, s2.fluxes) := by
  simp only [QY, h1, h2]
  rfl

/-- C3 witness: with a concrete always-succeeding solver and the two sample
models, `QY` returns exactly the solver's flux mappings as a pair. -/
theorem C3_QY_returns_both_flux_mappings_witness :
    okSolver sampleNonDielModel = Except.ok ⟨exampleNonDielFluxes⟩ ∧
    okSolver sampleDielModel = Except.ok ⟨exampleNonDielFluxes⟩ ∧
    QY okSolver sampleNonDielModel sampleDielModel
      = Except.ok (exampleNonDielFluxes, exampleNonDielFluxes) :=
  ⟨rfl, rfl,
    C3_QY_returns_both_flux_mappings okSolver sampleNonDielModel
      sampleDielModel ⟨exampleNonDielFluxes⟩ ⟨exampleNonDielFluxes⟩ rfl rfl⟩

/-- C9: the two solves in `QY` are strictly ordered: if the non-diel solve
fails with error `e`, `QY` propagates exactly that error, and the result is
the same for any solver agreeing with the given one on the non-diel model —
the diel model's solve never influences the outcome. -/
theorem C9_nonDiel_failure_short_circuits
    (pfba : MetabolicModel → Except String Solution)
    (nd d : MetabolicModel) (e : String)
    (h : pfba nd = Except.error e) :
    QY pfba nd d = Except.error e ∧
      ∀ g : MetabolicModel → Except String Solution,
        g nd = pfba nd → QY g nd d = Except.error e := by
  constructor
  · simp only [QY, h]
    rfl
  · intro g hg
    simp only [QY, hg, h]
    rfl

/-- C9 witness: with a concrete failing solver and the two sample models,
`QY` returns the solver's error. -/
theorem C9_nonDiel_failure_short_circuits_witness :
    failSolver sampleNonDielModel = Except.error "infeasible" ∧
    (QY failSolver sampleNonDielModel sampleDielModel
        = Except.error "infeasible" ∧
      ∀ g : MetabolicModel → Except String Solution,
        g sampleNonDielModel = failSolver sampleNonDielModel →
          QY g sampleNonDielModel sampleDielModel
            = Except.error "infeasible") :=
  ⟨rfl,
    C9_nonDiel_failure_short_circuits failSolver sampleNonDielModel
      sampleDielModel "infeasible" rfl⟩

/-- Helper: after `setReactionBounds rs rid b`, every reaction named `rid`
has bounds `b`. -/
theorem setReactionBounds_bounds_of_id (rs : List Reaction) (rid : String)
    (b : Rat × Rat) :
    ∀ r ∈ setReactionBounds rs rid b, r.id = rid →
      r.lowerBound = b.1 ∧ r.upperBound = b.2 := by
  intro r hr hid
  simp only [setReactionBounds, List.mem_map] at hr
  obtain ⟨r0, _, rfl⟩ := hr
  by_cases h : r0.id = rid
  · simp [h]
  · simp only [if_neg h] at hid ⊢
    exact absurd hid h

/-- Helper: if some reaction of `rs` is named `rid`, then after
`setReactionBounds rs rid b` a reaction named `rid` with bounds `b` is
present. -/
theorem setReactionBounds_exists_of_mem (rs : List Reaction) (rid : String)
    (b : Rat × Rat) (h : rid ∈ rs.map Reaction.id) :
    ∃ r ∈ setReactionBounds rs rid b,
      r.id = rid ∧ r.lowerBound = b.1 ∧ r.upperBound = b.2 := by
  simp only [List.mem_map] at h
  obtain ⟨r0, hr0, hid⟩ := h
  refine ⟨if r0.id = rid then
      { r0 with lowerBound := b.1, upperBound := b.2 } else r0,
    List.mem_map_of_mem _ hr0, ?_⟩
  simp [hid]

/-- C2: the configuration step sets on the non-diel model the objective
`EX_photon_h` with direction maximize (cobra's `"max"`) and fixes
`BIOMASS_STEM`'s bounds to exactly `(0.11, 0.11)`, and on the diel model
the objective `EX_photon_h_Day` with direction maximize and fixes
`Biomass_Total`'s bounds to exactly `(0.11, 0.11)`, provided the named
reactions exist in their models. -/
theorem C2_configuration_values (m1 m2 : MetabolicModel)
    (h1 : "BIOMASS_STEM" ∈ m1.reactions.map Reaction.id)
    (h2 : "Biomass_Total" ∈ m2.reactions.map Reaction.id) :
    (configureNonDiel m1).objective = "EX_photon_h" ∧
    (configureNonDiel m1).objectiveDirection = "max" ∧
    (∃ r ∈ (configureNonDiel m1).reactions, r.id = "BIOMASS_STEM" ∧
        r.lowerBound = 11/100 ∧ r.upperBound = 11/100) ∧
    (∀ r ∈ (configureNonDiel m1).reactions, r.id = "BIOMASS_STEM" →
        r.lowerBound = 11/100 ∧ r.upperBound = 11/100) ∧
    (configureDiel m2).objective = "EX_photon_h_Day" ∧
    (configureDiel m2).objectiveDirection = "max" ∧
    (∃ r ∈ (configureDiel m2).reactions, r.id = "Biomass_Total" ∧
        r.lowerBound = 11/100 ∧ r.upperBound = 11/100) ∧
    (∀ r ∈ (configureDiel m2).reactions, r.id = "Biomass_Total" →
        r.lowerBound = 11/100 ∧ r.upperBound = 11/100) := by
  refine ⟨rfl, rfl, ?_, ?_, rfl, rfl, ?_, ?_⟩
  · exact setReactionBounds_exists_of_mem m1.reactions "BIOMASS_STEM"
      (11/100, 11/100) h1
  · exact setReactionBounds_bounds_of_id m1.reactions "BIOMASS_STEM"
      (11/100, 11/100)
  · exact setReactionBounds_exists_of_mem m2.reactions "Biomass_Total"
      (11/100, 11/100) h2
  · exact setReactionBounds_bounds_of_id m2.reactions "Biomass_Total"
      (11/100, 11/100)

/-- C2 witness: the configuration values on the two concrete sample
models. -/
theorem C2_configuration_values_witness :
    "BIOMASS_STEM" ∈ sampleNonDielModel.reactions.map Reaction.id ∧
    "Biomass_Total" ∈ sampleDielModel.reactions.map Reaction.id ∧
    ((configureNonDiel sampleNonDielModel).objective = "EX_photon_h" ∧
      (configureNonDiel sampleNonDielModel).objectiveDirection = "max" ∧
      (∃ r ∈ (configureNonDiel sampleNonDielModel).reactions,
          r.id = "BIOMASS_STEM" ∧
          r.lowerBound = 11/100 ∧ r.upperBound = 11/100) ∧
      (∀ r ∈ (configureNonDiel sampleNonDielModel).reactions,
          r.id = "BIOMASS_STEM" →
          r.lowerBound = 11/100 ∧ r.upperBound = 11/100) ∧
      (configureDiel sampleDielModel).objective = "EX_photon_h_Day" ∧
      (configureDiel sampleDielModel).objectiveDirection = "max" ∧
      (∃ r ∈ (configureDiel sampleDielModel).reactions,
          r.id = "Biomass_Total" ∧
          r.lowerBound = 11/100 ∧ r.upperBound = 11/100) ∧
      (∀ r ∈ (configureDiel sampleDielModel).reactions,
          r.id = "Biomass_Total" →
          r.lowerBound = 11/100 ∧ r.upperBound = 11/100)) :=
  ⟨by decide, by decide,
    C2_configuration_values sampleNonDielModel sampleDielModel
      (by decide) (by decide)⟩

/-- Helper frame lemma: `setReactionBounds` preserves, position by position,
each reaction's identifier and stoichiometry, and leaves any reaction not
named `rid` entirely unchanged. -/
theorem setReactionBounds_frame (rs : List Reaction) (rid : String)
    (b : Rat × Rat) :
    List.Forall₂ (fun rNew rOld => rNew.id = rOld.id ∧
        rNew.stoichiometry = rOld.stoichiometry ∧
        (rOld.id ≠ rid → rNew = rOld))
      (setReactionBounds rs rid b) rs := by
  simp only [setReactionBounds, List.forall₂_map_left_iff, List.forall₂_same]
  intro r _
  by_cases h : r.id = rid
  · simp [h]
  · simp [h]

/-- C8: the configuration step changes only the objective reaction, the
objective direction, and the bounds of the one named reaction: the
metabolite list is unchanged, and, position by position, every reaction
keeps its identifier and stoichiometry, and every reaction not named
`BIOMASS_STEM` (resp. `Biomass_Total`) is entirely unchanged. In the
source the step is a sequence of in-place assignments with no return
value; its effect is embedded as state passing. -/
theorem C8_configuration_frame (m1 m2 : MetabolicModel) :
    (configureNonDiel m1).metabolites = m1.metabolites ∧
    List.Forall₂ (fun rNew rOld => rNew.id = rOld.id ∧
        rNew.stoichiometry = rOld.stoichiometry ∧
        (rOld.id ≠ "BIOMASS_STEM" → rNew = rOld))
      (configureNonDiel m1).reactions m1.reactions ∧
    (configureDiel m2).metabolites = m2.metabolites ∧
    List.Forall₂ (fun rNew rOld => rNew.id = rOld.id ∧
        rNew.stoichiometry = rOld.stoichiometry ∧
        (rOld.id ≠ "Biomass_Total" → rNew = rOld))
      (configureDiel m2).reactions m2.reactions :=
  ⟨rfl, setReactionBounds_frame m1.reactions "BIOMASS_STEM" (11/100, 11/100),
    rfl, setReactionBounds_frame m2.reactions "Biomass_Total" (11/100, 11/100)⟩

/-- Helper: a successful run's output is exactly the table built by
`mkTabel` from the two computed ratios, written and printed. -/
theorem scriptTail_eq_some (nd d : FluxMap) (out : RunOutput)
    (h : scriptTail nd d = some out) :
    ∃ qs : Rat × Rat, data_quantum_assimilation nd d = some qs ∧
      out = { written := to_csv (mkTabel qs.1 qs.2),
              printed := mkTabel qs.1 qs.2 } := by
  cases hq : data_quantum_assimilation nd d with
  | none => simp [scriptTail, hq] at h
  | some qs =>
    refine ⟨qs, rfl, ?_⟩
    simp only [scriptTail, hq, Option.bind_eq_bind', Option.some_bind',
      Option.pure_def, Option.some.injEq] at h
    exact h.symm

/-- Helper: the computed ratios on the spec's fabricated flux mappings are
`(0.5, 0.5)`. -/
theorem example_ratios :
    data_quantum_assimilation exampleNonDielFluxes exampleDielFluxes
      = some (1/2, 1/2) := by
  have h1 : FluxMap.lookup exampleNonDielFluxes "RBPCh" = some 10 := by decide
  have h2 : FluxMap.lookup exampleNonDielFluxes "EX_photon_h" = some (-20) := by
    decide
  have h3 : FluxMap.lookup exampleDielFluxes "RBPCh_Day" = some 5 := by decide
  have h4 : FluxMap.lookup exampleDielFluxes "EX_photon_h_Day" = some (-10) := by
    decide
  simp [data_quantum_assimilation, h1, h2, h3, h4]
  norm_num

/-- Helper: the full run on the spec's fabricated flux mappings. -/
theorem example_run_eq :
    scriptTail exampleNonDielFluxes exampleDielFluxes
      = some { written := to_csv (mkTabel (1/2) (1/2)),
               printed := mkTabel (1/2) (1/2) } := by
  simp [scriptTail, example_ratios]

/-- C4: whenever the run reaches table assembly, the assembled table has
exactly two rows, labeled "Original Model" then "Created Diel Model", a
single column named "Quantum Yield", and is not mutated afterwards: both
the written CSV rows and the printed table are exactly the table as
constructed. -/
theorem C4_table_shape_and_immutability (nd d : FluxMap) (out : RunOutput)
    (h : scriptTail nd d = some out) :
    out.printed.column = "Quantum Yield" ∧
    out.printed.rows.length = 2 ∧
    out.printed.rows.map Prod.fst = ["Original Model", "Created Diel Model"] ∧
    out.written.dataRows = out.printed.rows ∧
    ∃ v1 v2 : Rat, out.printed = mkTabel v1 v2 := by
  obtain ⟨qs, _, rfl⟩ := scriptTail_eq_some nd d out h
  exact ⟨rfl, rfl, rfl, rfl, qs.1, qs.2, rfl⟩

/-- C4 witness: the run on the spec's fabricated flux mappings. -/
theorem C4_table_shape_and_immutability_witness :
    scriptTail exampleNonDielFluxes exampleDielFluxes
      = some { written := to_csv (mkTabel (1/2) (1/2)),
               printed := mkTabel (1/2) (1/2) } ∧
    ((mkTabel (1/2) (1/2)).column = "Quantum Yield" ∧
      (mkTabel (1/2) (1/2)).rows.length = 2 ∧
      (mkTabel (1/2) (1/2)).rows.map Prod.fst
        = ["Original Model", "Created Diel Model"] ∧
      (to_csv (mkTabel (1/2) (1/2))).dataRows = (mkTabel (1/2) (1/2)).rows ∧
      ∃ v1 v2 : Rat, mkTabel (1/2) (1/2) = mkTabel v1 v2) :=
  ⟨example_run_eq,
    C4_table_shape_and_immutability exampleNonDielFluxes exampleDielFluxes
      { written := to_csv (mkTabel (1/2) (1/2)),
        printed := mkTabel (1/2) (1/2) } example_run_eq⟩

/-- C5: on a successful run the written file is named `QY_Tomato22.csv`,
comma-delimited, with header row `,Quantum Yield` and two data rows labeled
"Original Model" and "Created Diel Model", each carrying one value; and the
printed table is exactly the written table. -/
theorem C5_csv_file_and_console (nd d : FluxMap) (out : RunOutput)
    (h : scriptTail nd d = some out) :
    out.written.name = "QY_Tomato22.csv" ∧
    out.written.sep = ',' ∧
    out.written.headerLine = ",Quantum Yield" ∧
    out.written.dataRows.map Prod.fst
      = ["Original Model", "Created Diel Model"] ∧
    out.written.dataRows.length = 2 ∧
    out.written = to_csv out.printed := by
  obtain ⟨qs, _, rfl⟩ := scriptTail_eq_some nd d out h
  exact ⟨rfl, rfl, rfl, rfl, rfl, rfl⟩

/-- C5 witness: the file written on the spec's fabricated flux mappings. -/
theorem C5_csv_file_and_console_witness :
    scriptTail exampleNonDielFluxes exampleDielFluxes
      = some { written := to_csv (mkTabel (1/2) (1/2)),
               printed := mkTabel (1/2) (1/2) } ∧
    ((to_csv (mkTabel (1/2) (1/2))).name = "QY_Tomato22.csv" ∧
      (to_csv (mkTabel (1/2) (1/2))).sep = ',' ∧
      (to_csv (mkTabel (1/2) (1/2))).headerLine = ",Quantum Yield" ∧
      (to_csv (mkTabel (1/2) (1/2))).dataRows.map Prod.fst
        = ["Original Model", "Created Diel Model"] ∧
      (to_csv (mkTabel (1/2) (1/2))).dataRows.length = 2 ∧
      to_csv (mkTabel (1/2) (1/2)) = to_csv (mkTabel (1/2) (1/2))) :=
  ⟨example_run_eq,
    C5_csv_file_and_console exampleNonDielFluxes exampleDielFluxes
      { written := to_csv (mkTabel (1/2) (1/2)),
        printed := mkTabel (1/2) (1/2) } example_run_eq⟩

/-- C6: if any of the four reaction-name keys is absent from its flux
mapping, the ratio computation fails rather than producing a default, and
the run produces no output: in particular no CSV file is written. -/
theorem C6_missing_key_aborts_run (nd d : FluxMap)
    (h : nd.lookup "RBPCh" = none ∨ nd.lookup "EX_photon_h" = none ∨
        d.lookup "RBPCh_Day" = none ∨ d.lookup "EX_photon_h_Day" = none) :
    data_quantum_assimilation nd d = none ∧ scriptTail nd d = none := by
  have hq : data_quantum_assimilation nd d = none := by
    cases h1 : nd.lookup "RBPCh" <;>
      cases h2 : nd.lookup "EX_photon_h" <;>
        cases h3 : d.lookup "RBPCh_Day" <;>
          cases h4 : d.lookup "EX_photon_h_Day" <;>
            simp_all [data_quantum_assimilation]
  exact ⟨hq, by simp [scriptTail, hq]⟩

/-- C6 witness: a non-diel mapping lacking `EX_photon_h` aborts the run
with no file written. -/
theorem C6_missing_key_aborts_run_witness :
    (FluxMap.lookup [("RBPCh", (10 : Rat))] "RBPCh" = none ∨
      FluxMap.lookup [("RBPCh", (10 : Rat))] "EX_photon_h" = none ∨
      FluxMap.lookup exampleDielFluxes "RBPCh_Day" = none ∨
      FluxMap.lookup exampleDielFluxes "EX_photon_h_Day" = none) ∧
    (data_quantum_assimilation [("RBPCh", (10 : Rat))] exampleDielFluxes
        = none ∧
      scriptTail [("RBPCh", (10 : Rat))] exampleDielFluxes = none) :=
  ⟨by decide,
    C6_missing_key_aborts_run [("RBPCh", (10 : Rat))] exampleDielFluxes
      (by decide)⟩

/-- C7: writing an assembled result table to CSV and re-reading it
reproduces the same two row labels and the same two numeric values: the
round trip is exact (numeric cells are carried losslessly), hence within
any tolerance such as `1e-9`. -/
theorem C7_csv_round_trip (v1 v2 : Rat) :
    (read_csv (to_csv (mkTabel v1 v2))).rows.map Prod.fst
        = (mkTabel v1 v2).rows.map Prod.fst ∧
    (read_csv (to_csv (mkTabel v1 v2))).rows = (mkTabel v1 v2).rows ∧
    ∀ i : Nat,
      |((read_csv (to_csv (mkTabel v1 v2))).rows.map Prod.snd).getD i 0 -
          ((mkTabel v1 v2).rows.map Prod.snd).getD i 0| ≤ 1/1000000000 := by
  refine ⟨rfl, rfl, ?_⟩
  intro i
  show |((mkTabel v1 v2).rows.map Prod.snd).getD i 0 -
      ((mkTabel v1 v2).rows.map Prod.snd).getD i 0| ≤ 1/1000000000
  rw [sub_self, abs_zero]
  norm_num

/-- Helper: a successful ratio computation determines the four looked-up
fluxes and expresses the result pair from them. -/
theorem data_quantum_assimilation_eq_some (nd d : FluxMap) (q : Rat × Rat)
    (h : data_quantum_assimilation nd d = some q) :
    ∃ c p cDay pDay : Rat,
      nd.lookup "RBPCh" = some c ∧ nd.lookup "EX_photon_h" = some p ∧
      d.lookup "RBPCh_Day" = some cDay ∧
      d.lookup "EX_photon_h_Day" = some pDay ∧
      q = (c / (-p), cDay / (-pDay)) := by
  cases hc : nd.lookup "RBPCh" with
  | none => simp [data_quantum_assimilation, hc] at h
  | some c =>
  cases hp : nd.lookup "EX_photon_h" with
  | none => simp [data_quantum_assimilation, hc, hp] at h
  | some p =>
  cases hcD : d.lookup "RBPCh_Day" with
  | none => simp [data_quantum_assimilation, hc, hp, hcD] at h
  | some cDay =>
  cases hpD : d.lookup "EX_photon_h_Day" with
  | none => simp [data_quantum_assimilation, hc, hp, hcD, hpD] at h
  | some pDay =>
    refine ⟨c, p, cDay, pDay, rfl, rfl, rfl, rfl, ?_⟩
    simp [data_quantum_assimilation, hc, hp, hcD, hpD] at h
    exact h.symm

/-- A second non-diel flux mapping agreeing with the first on the keys
`RBPCh` and `EX_photon_h` but differing elsewhere. -/
def exampleNonDielFluxesB : FluxMap :=
  [("RBPCh", 10), ("EX_photon_h", -20), ("EX_co2_e", 3)]

/-- A second diel flux mapping with different fluxes at the diel keys. -/
def exampleDielFluxesB : FluxMap := [("RBPCh_Day", 7), ("EX_photon_h_Day", -7)]

/-- Helper: the ratios computed from the second pair of mappings. -/
theorem example_ratios_B :
    data_quantum_assimilation exampleNonDielFluxesB exampleDielFluxesB
      = some (1/2, 1) := by
  have h1 : FluxMap.lookup exampleNonDielFluxesB "RBPCh" = some 10 := by decide
  have h2 : FluxMap.lookup exampleNonDielFluxesB "EX_photon_h" = some (-20) := by
    decide
  have h3 : FluxMap.lookup exampleDielFluxesB "RBPCh_Day" = some 7 := by decide
  have h4 : FluxMap.lookup exampleDielFluxesB "EX_photon_h_Day" = some (-7) := by
    decide
  simp [data_quantum_assimilation, h1, h2, h3, h4]
  norm_num

/-- C10: the first table value depends only on the non-diel mapping's
fluxes at `RBPCh` and `EX_photon_h`, and the second only on the diel
mapping's fluxes at `RBPCh_Day` and `EX_photon_h_Day`: two successful runs
agreeing on those keys produce the same respective value, regardless of
the other mapping. -/
theorem C10_row_noninterference (nd d nd2 d2 : FluxMap) (q q2 : Rat × Rat)
    (h : data_quantum_assimilation nd d = some q)
    (h2 : data_quantum_assimilation nd2 d2 = some q2) :
    (nd.lookup "RBPCh" = nd2.lookup "RBPCh" →
      nd.lookup "EX_photon_h" = nd2.lookup "EX_photon_h" → q.1 = q2.1) ∧
    (d.lookup "RBPCh_Day" = d2.lookup "RBPCh_Day" →
      d.lookup "EX_photon_h_Day" = d2.lookup "EX_photon_h_Day" →
        q.2 = q2.2) := by
  obtain ⟨c, p, cDay, pDay, hc, hp, hcD, hpD, rfl⟩ :=
    data_quantum_assimilation_eq_some nd d q h
  obtain ⟨c2, p2, cDay2, pDay2, hc2, hp2, hcD2, hpD2, rfl⟩ :=
    data_quantum_assimilation_eq_some nd2 d2 q2 h2
  constructor
  · intro e1 e2
    have ec : c = c2 := by
      rw [hc, hc2] at e1
      exact Option.some.inj e1
    have ep : p = p2 := by
      rw [hp, hp2] at e2
      exact Option.some.inj e2
    simp [ec, ep]
  · intro e1 e2
    have ec : cDay = cDay2 := by
      rw [hcD, hcD2] at e1
      exact Option.some.inj e1
    have ep : pDay = pDay2 := by
      rw [hpD, hpD2] at e2
      exact Option.some.inj e2
    simp [ec, ep]

/-- C10 witness: two runs whose non-diel mappings agree on `RBPCh` and
`EX_photon_h` but whose diel mappings differ produce the same first
value. -/
theorem C10_row_noninterference_witness :
    data_quantum_assimilation exampleNonDielFluxes exampleDielFluxes
      = some (1/2, 1/2) ∧
    data_quantum_assimilation exampleNonDielFluxesB exampleDielFluxesB
      = some (1/2, 1) ∧
    ((FluxMap.lookup exampleNonDielFluxes "RBPCh"
          = FluxMap.lookup exampleNonDielFluxesB "RBPCh" →
        FluxMap.lookup exampleNonDielFluxes "EX_photon_h"
          = FluxMap.lookup exampleNonDielFluxesB "EX_photon_h" →
        (((1 : Rat)/2, (1 : Rat)/2)).1 = (((1 : Rat)/2, (1 : Rat))).1) ∧
      (FluxMap.lookup exampleDielFluxes "RBPCh_Day"
          = FluxMap.lookup exampleDielFluxesB "RBPCh_Day" →
        FluxMap.lookup exampleDielFluxes "EX_photon_h_Day"
          = FluxMap.lookup exampleDielFluxesB "EX_photon_h_Day" →
        (((1 : Rat)/2, (1 : Rat)/2)).2 = (((1 : Rat)/2, (1 : Rat))).2)) :=
  ⟨example_ratios, example_ratios_B,
    C10_row_noninterference exampleNonDielFluxes exampleDielFluxes
      exampleNonDielFluxesB exampleDielFluxesB (1/2, 1/2) (1/2, 1)
      example_ratios example_ratios_B⟩
